import Mathlib

/-!
Shallow embedding of the ESP32-C3 car firmware core: the command-to-motor-drive
translation and safety-timeout state machine, translated from
`src/backup/main-2025-10-21.cpp` (WiFi/WebSocket variant) and
`src/backup/ble_motor_control.cpp` (BLE variant).

Machine integers: the firmware's `int` values are 32-bit; stores and reads are
embedded as `Int`, and the one arithmetic step that can leave the 32-bit range
— the `input * MAX_DUTY` multiply of the joystick scaling, which wraps for
|input| ≥ 8421505 — is embedded with explicit two's-complement wraparound
(`wrap32`).  C/C++ signed division truncates toward zero, embedded as
`Int.tdiv`.
`millis()` is a 32-bit unsigned counter; the subtraction
`millis() - lastCommandTime` is embedded with explicit wraparound mod `2 ^ 32`.
The JSON decoding of a structured payload is performed by the external
ArduinoJson library (an excluded collaborator); its outcome is embedded as
`Option JsonFields`: `none` for a payload that fails to parse, `some f` for a
decoded document whose optional integer fields `steer`/`throttle` are read with
default 0 (the `doc["steer"] | 0` idiom).  Log output is embedded as a list of
`LogEvent`s, one entry per emitted log line / broadcast.
-/

/-- Arduino's `constrain(amt, low, high)` macro: `amt < low ? low : (amt > high ? high : amt)`. -/
def constrain (amt low high : Int) : Int :=
  if amt < low then low else if amt > high then high else amt

/-- Two's-complement wraparound of a 32-bit signed `int`: the value the ESP32
hardware produces when a C `int` computation leaves [-2^31, 2^31). -/
def wrap32 (x : Int) : Int :=
  (x + 2 ^ 31) % 2 ^ 32 - 2 ^ 31

/-- Embeds `const int MAX_DUTY = 255` (main-2025-10-21.cpp line 25). -/
def MAX_DUTY : Int := 255

/-- Embeds `const unsigned long COMMAND_TIMEOUT = 300` (main-2025-10-21.cpp line 30). -/
def COMMAND_TIMEOUT : Nat := 300

/-- Embeds `enum DriveMode { AUTO, MANUAL }` (main-2025-10-21.cpp line 33). -/
inductive DriveMode where
  | AUTO
  | MANUAL
deriving DecidableEq

/-- One emitted log line / WebSocket broadcast, abstracted to which event it reports. -/
inductive LogEvent where
  | wsConnected
  | wsDisconnected
  | modeSwitchedAuto
  | modeSwitchedManual
  | emergencyStop
  | jsonParseFailed
  | statusBroadcast (motorA motorB : Int) (mode : DriveMode)
  | timeoutStop
deriving DecidableEq

/-- The mutable globals of main-2025-10-21.cpp relevant to the drive core:
`targetA`, `targetB` (line 27-28), the four LEDC channel duties written through
`ledcWrite` (`CH_A_FWD`, `CH_A_REV`, `CH_B_LEFT`, `CH_B_RIGHT`, lines 17-20),
the `motor_stby` enable line level (`true` = HIGH), `currentMode` (line 34),
`lastCommandTime` (line 29), and the list of emitted log events. -/
structure CarState where
  targetA : Int
  targetB : Int
  chAFwd : Int
  chARev : Int
  chBLeft : Int
  chBRight : Int
  stby : Bool
  currentMode : DriveMode
  lastCommandTime : Nat
  log : List LogEvent
deriving DecidableEq

/-- Fields of a successfully decoded structured (JSON) payload: `steer` and
`throttle`, each `none` when the field is absent from the document. -/
structure JsonFields where
  steer : Option Int
  throttle : Option Int
deriving DecidableEq

/-- A WebSocket TEXT payload, pre-split by the `msg.length() == 1` test of
`webSocketEvent`: a single character, or a longer payload handed to the JSON
decoder (whose outcome is embedded as `Option JsonFields`). -/
inductive TextMsg where
  | single (c : Char)
  | structuredMsg (doc : Option JsonFields)

/-- The WebSocket events dispatched by `webSocketEvent` (main-2025-10-21.cpp line 131). -/
inductive WsEvent where
  | connected
  | disconnected
  | text (m : TextMsg)

/-- Embeds `emergencyStopNow()` (main-2025-10-21.cpp lines 121-128): zero both
targets, drive `motor_stby` LOW, zero all four PWM channels, log. -/
def emergencyStopNow (s : CarState) : CarState :=
  { s with targetA := 0, targetB := 0, stby := false,
           chAFwd := 0, chARev := 0, chBLeft := 0, chBRight := 0,
           log := s.log ++ [LogEvent.emergencyStop] }

/-- Embeds the single-character branch of `webSocketEvent` (lines 147-162):
`'A'`/`'M'` switch the mode (with a log), `'S'` runs `emergencyStopNow`, any
other character falls through the `switch` silently; every branch then executes
`lastCommandTime = millis()`. -/
def handleSingle (s : CarState) (c : Char) (now : Nat) : CarState :=
  let s1 :=
    if c = 'A' then
      { s with currentMode := DriveMode.AUTO, log := s.log ++ [LogEvent.modeSwitchedAuto] }
    else if c = 'M' then
      { s with currentMode := DriveMode.MANUAL, log := s.log ++ [LogEvent.modeSwitchedManual] }
    else if c = 'S' then
      emergencyStopNow s
    else s
  { s1 with lastCommandTime := now }

/-- Embeds the motor-A channel writes of `webSocketEvent` (lines 191-193):
`speedA > 0` writes `(CH_A_FWD, CH_A_REV) := (speedA, 0)`, `speedA < 0` writes
`(0, abs(speedA))`, otherwise `(0, 0)`. -/
def applyChannelsA (s : CarState) (speedA : Int) : CarState :=
  if speedA > 0 then { s with chAFwd := speedA, chARev := 0 }
  else if speedA < 0 then { s with chAFwd := 0, chARev := |speedA| }
  else { s with chAFwd := 0, chARev := 0 }

/-- Embeds the motor-B channel writes of `webSocketEvent` (lines 195-197):
`CH_B_RIGHT` plays the forward role and `CH_B_LEFT` the reverse role. -/
def applyChannelsB (s : CarState) (speedB : Int) : CarState :=
  if speedB > 0 then { s with chBRight := speedB, chBLeft := 0 }
  else if speedB < 0 then { s with chBRight := 0, chBLeft := |speedB| }
  else { s with chBRight := 0, chBLeft := 0 }

/-- Embeds the JSON branch of `webSocketEvent` (lines 164-218).  On a decode
failure only an error line is logged.  On success `steer`/`throttle` default to
0 when absent; only when `currentMode == MANUAL` are the scaled, constrained
duties stored, the enable line driven HIGH, the channel pairs written and
`lastCommandTime` refreshed.  The `throttle * MAX_DUTY` / `steer * MAX_DUTY`
multiplies are 32-bit `int` arithmetic and wrap (`wrap32`) when the product
leaves the `int` range, i.e. for |input| ≥ 8421505.  In both modes a status
document holding the current `targetA`/`targetB`/mode is broadcast. -/
def handleStructured (s : CarState) (doc : Option JsonFields) (now : Nat) : CarState :=
  match doc with
  | none => { s with log := s.log ++ [LogEvent.jsonParseFailed] }
  | some f =>
    let steer := f.steer.getD 0
    let throttle := f.throttle.getD 0
    let s1 :=
      if s.currentMode = DriveMode.MANUAL then
        let scaledThrottle := Int.tdiv (wrap32 (throttle * MAX_DUTY)) 100
        let scaledSteer := Int.tdiv (wrap32 (steer * MAX_DUTY)) 100
        let tA := constrain scaledThrottle (-MAX_DUTY) MAX_DUTY
        let tB := constrain scaledSteer (-MAX_DUTY) MAX_DUTY
        let s2 := { s with targetA := tA, targetB := tB, stby := true }
        let s3 := applyChannelsA s2 tA
        let s4 := applyChannelsB s3 tB
        { s4 with lastCommandTime := now }
      else s
    { s1 with log := s1.log ++ [LogEvent.statusBroadcast s1.targetA s1.targetB s1.currentMode] }

/-- Embeds `webSocketEvent` (main-2025-10-21.cpp lines 131-225): CONNECTED logs,
DISCONNECTED logs then runs `emergencyStopNow`, TEXT dispatches on length. -/
def webSocketEvent (s : CarState) (ev : WsEvent) (now : Nat) : CarState :=
  match ev with
  | WsEvent.connected => { s with log := s.log ++ [LogEvent.wsConnected] }
  | WsEvent.disconnected =>
      emergencyStopNow { s with log := s.log ++ [LogEvent.wsDisconnected] }
  | WsEvent.text (TextMsg.single c) => handleSingle s c now
  | WsEvent.text (TextMsg.structuredMsg doc) => handleStructured s doc now

/-- The 32-bit unsigned subtraction `millis() - lastCommandTime` (both operands
`unsigned long`, 32 bits on ESP32-C3), for `now, last < 2 ^ 32`. -/
def elapsedMillis (now last : Nat) : Nat := (now + 2 ^ 32 - last) % 2 ^ 32

/-- Embeds the Safety Timeout Monitor portion of `loop()` (main-2025-10-21.cpp
lines 637-648): when the elapsed time exceeds `COMMAND_TIMEOUT` and a target is
nonzero, log once, zero both targets, drive `motor_stby` LOW and zero all four
PWM channels; otherwise do nothing. -/
def loopTick (s : CarState) (now : Nat) : CarState :=
  if elapsedMillis now s.lastCommandTime > COMMAND_TIMEOUT then
    if s.targetA ≠ 0 ∨ s.targetB ≠ 0 then
      { s with log := s.log ++ [LogEvent.timeoutStop],
               targetA := 0, targetB := 0, stby := false,
               chAFwd := 0, chARev := 0, chBLeft := 0, chBRight := 0 }
    else s
  else s

/-- The state established by `setup()` (main-2025-10-21.cpp lines 607-628):
`motor_stby` LOW, all duties and channels zero, `currentMode = MANUAL`
(initializer at line 34), `lastCommandTime = 0` (initializer at line 29). -/
def initState : CarState :=
  { targetA := 0, targetB := 0,
    chAFwd := 0, chARev := 0, chBLeft := 0, chBRight := 0,
    stby := false, currentMode := DriveMode.MANUAL, lastCommandTime := 0, log := [] }

/-- A structured axis command with both fields present, as sent by the web UI. -/
def wsAxis (steer throttle : Int) : WsEvent :=
  WsEvent.text (TextMsg.structuredMsg (some { steer := some steer, throttle := some throttle }))

/-- The states of the WiFi/WebSocket core reachable from boot by any sequence of
WebSocket events and control-loop ticks. -/
inductive Reachable : CarState → Prop where
  | boot : Reachable initState
  | ws : ∀ {s : CarState} (ev : WsEvent) (now : Nat), Reachable s → Reachable (webSocketEvent s ev now)
  | tk : ∀ {s : CarState} (now : Nat), Reachable s → Reachable (loopTick s now)

/-!
BLE firmware variant (`src/backup/ble_motor_control.cpp`): legacy
`"M1:<int>,M2:<int>"` text protocol.  `std::string` operations (`find`,
`substr`, `std::stoi`) are embedded over `List Char`.
-/

/-- Whether `pat` occurs at the head of `s` (character-exact match). -/
def tokenAt (pat s : List Char) : Bool :=
  match pat, s with
  | [], _ => true
  | _ :: _, [] => false
  | p :: ps, c :: cs => p == c && tokenAt ps cs

/-- Embeds `std::string::find(pat)`: index of the first occurrence of `pat` in
`s`, `none` for `npos`. -/
def findSub (pat s : List Char) : Option Nat :=
  match s with
  | [] => if tokenAt pat [] then some 0 else none
  | c :: cs => if tokenAt pat (c :: cs) then some 0 else (findSub pat cs).map (· + 1)

/-- Embeds `std::string::find(pat, start)`: first occurrence at index ≥ `start`. -/
def findFromIdx (pat s : List Char) (start : Nat) : Option Nat :=
  (findSub pat (s.drop start)).map (· + start)

/-- The whitespace characters skipped by `std::stoi` (default locale `isspace`). -/
def isSpaceChar (c : Char) : Bool :=
  c == ' ' || c == '\t' || c == '\n' || c == '\x0b' || c == '\x0c' || c == '\r'

/-- Decimal digit test, as in `strtol`. -/
def isDigitChar (c : Char) : Bool :=
  '0' ≤ c && c ≤ '9'

/-- Embeds `std::stoi(s)` on a 32-bit `int`: skip leading whitespace, optional
sign, then a nonempty maximal run of decimal digits; `none` when no digits
follow (`invalid_argument`) or when the value leaves the `int` range
(`out_of_range`) — both exceptions are caught by the caller's `catch (...)`. -/
def stoiModel (s : List Char) : Option Int :=
  let s1 := s.dropWhile isSpaceChar
  let signAndRest : Bool × List Char :=
    match s1 with
    | '-' :: rest => (true, rest)
    | '+' :: rest => (false, rest)
    | _ => (false, s1)
  let ds := signAndRest.2.takeWhile isDigitChar
  if ds.isEmpty then none
  else
    let n : Nat := ds.foldl (fun acc c => acc * 10 + (c.toNat - '0'.toNat)) 0
    let v : Int := if signAndRest.1 then -(n : Int) else (n : Int)
    if v < -2147483648 ∨ 2147483647 < v then none else some v

/-- The token `"M1:"` searched by `MyCallbacks::onWrite`. -/
def m1Token : List Char := ['M', '1', ':']

/-- The token `"M2:"` searched by `MyCallbacks::onWrite`. -/
def m2Token : List Char := ['M', '2', ':']

/-- The comma separator searched by `MyCallbacks::onWrite`. -/
def commaTok : List Char := [',']

/-- The `m1_str` extraction of `MyCallbacks::onWrite` (ble_motor_control.cpp
lines 47-50) given `m1_pos = p`: the characters after `"M1:"` up to the first
comma at index ≥ `p` (to the end when there is none; when the comma exists its
index is ≥ `p + 3` since `s[p..p+2] = "M1:"`, so the `take` count is exact). -/
def m1Extract (rx : List Char) (p : Nat) : List Char :=
  match findFromIdx commaTok rx p with
  | none => rx.drop (p + 3)
  | some e => (rx.drop (p + 3)).take (e - (p + 3))

/-- The `m2_str` extraction (ble_motor_control.cpp line 61): everything after `"M2:"`. -/
def m2Extract (rx : List Char) (p : Nat) : List Char :=
  rx.drop (p + 3)

/-- The `m1_speed` computation of `MyCallbacks::onWrite` (lines 40-56):
0 when the `"M1:"` token is absent, otherwise `std::stoi` of the extracted
segment with 0 kept on a caught parse exception. -/
def parseM1 (rx : List Char) : Int :=
  match findSub m1Token rx with
  | none => 0
  | some p => (stoiModel (m1Extract rx p)).getD 0

/-- The `m2_speed` computation of `MyCallbacks::onWrite` (lines 58-67). -/
def parseM2 (rx : List Char) : Int :=
  match findSub m2Token rx with
  | none => 0
  | some p => (stoiModel (m2Extract rx p)).getD 0

/-- Embeds `setMotorSpeed(in1_pin, in2_pin, speed)` (ble_motor_control.cpp
lines 102-121) as the `(IN1, IN2)` PWM duty pair it writes: `constrain` to
[-255, 255], then forward drives IN1 with the magnitude, reverse drives IN2,
zero stops both. -/
def setMotorSpeed (speed : Int) : Int × Int :=
  let sp := constrain speed (-255) 255
  let absSpeed := |sp|
  if sp > 0 then (absSpeed, 0)
  else if sp < 0 then (0, absSpeed)
  else (0, 0)

/-- The four PWM duties of the BLE variant: motor 1 pins `(M1_IN1, M1_IN2)` and
motor 2 pins `(M2_IN1, M2_IN2)`. -/
structure BleState where
  m1In1 : Int
  m1In2 : Int
  m2In1 : Int
  m2In2 : Int
deriving DecidableEq

/-- The state after `setup()` in the BLE variant: both motors stopped. -/
def bleSetupState : BleState :=
  { m1In1 := 0, m1In2 := 0, m2In1 := 0, m2In2 := 0 }

/-- Embeds `MyCallbacks::onWrite` (ble_motor_control.cpp lines 28-73): for a
non-empty received value, parse `m1_speed` and `m2_speed` independently and
drive both motors; an empty value does nothing. -/
def bleOnWrite (s : BleState) (rx : List Char) : BleState :=
  if rx.length > 0 then
    let p1 := setMotorSpeed (parseM1 rx)
    let p2 := setMotorSpeed (parseM2 rx)
    { m1In1 := p1.1, m1In2 := p1.2, m2In1 := p2.1, m2In2 := p2.2 }
  else s

/-- Embeds `MyServerCallbacks::onConnect` (ble_motor_control.cpp lines 78-84):
stops both motors. -/
def bleOnConnect (s : BleState) : BleState :=
  let p1 := setMotorSpeed 0
  let p2 := setMotorSpeed 0
  { s with m1In1 := p1.1, m1In2 := p1.2, m2In1 := p2.1, m2In2 := p2.2 }

/-- Embeds `MyServerCallbacks::onDisconnect` (ble_motor_control.cpp lines
86-93): it calls `setMotorSpeed` only for motor 1 — motor 2's channels are left
untouched. -/
def bleOnDisconnect (s : BleState) : BleState :=
  let p1 := setMotorSpeed 0
  { s with m1In1 := p1.1, m1In2 := p1.2 }

/-- The per-axis joystick-to-duty mapping computed by the MANUAL branch of
`webSocketEvent`: multiply by `MAX_DUTY` in 32-bit `int` arithmetic (wrapping
when the product overflows), divide by 100 with C truncation, then `constrain`. -/
def mapDuty (v : Int) : Int :=
  constrain (Int.tdiv (wrap32 (v * MAX_DUTY)) 100) (-MAX_DUTY) MAX_DUTY

/-- The core state right after the single-character command `'A'` at time 0:
mode AUTO, everything else as at boot. -/
def stateAfterAuto : CarState :=
  webSocketEvent initState (WsEvent.text (TextMsg.single 'A')) 0

/-- C-style truncating division expressed through Euclidean division, for a
nonnegative divisor. -/
theorem tdiv_as_ediv (a b : Int) (hb : 0 ≤ b) :
    Int.tdiv a b = if 0 ≤ a then a / b else -((-a) / b) := by
  split
  · exact Int.tdiv_eq_ediv ‹_› hb
  · have h2 : (0:Int) ≤ -a := by omega
    calc Int.tdiv a b = Int.tdiv (-(-a)) b := by rw [Int.neg_neg]
      _ = -Int.tdiv (-a) b := Int.neg_tdiv _ _
      _ = -((-a) / b) := by rw [Int.tdiv_eq_ediv h2 hb]

/-- `wrap32` is the identity on values already inside the 32-bit `int` range. -/
theorem wrap32_eq_self (x : Int) (h1 : -(2 ^ 31) ≤ x) (h2 : x < 2 ^ 31) :
    wrap32 x = x := by
  unfold wrap32
  omega

/-- Full characterization of one structured axis command processed in MANUAL
mode: duties mapped and stored, enable line asserted, channel pairs written per
the sign of each duty, timestamp refreshed, one status broadcast emitted. -/
theorem wsAxis_manual_eq (s : CarState) (steer throttle : Int) (now : Nat)
    (h : s.currentMode = DriveMode.MANUAL) :
    webSocketEvent s (wsAxis steer throttle) now
      = { s with
          targetA := mapDuty throttle, targetB := mapDuty steer, stby := true,
          chAFwd := if mapDuty throttle > 0 then mapDuty throttle else 0,
          chARev := if mapDuty throttle < 0 then |mapDuty throttle| else 0,
          chBRight := if mapDuty steer > 0 then mapDuty steer else 0,
          chBLeft := if mapDuty steer < 0 then |mapDuty steer| else 0,
          lastCommandTime := now,
          log := s.log ++
            [LogEvent.statusBroadcast (mapDuty throttle) (mapDuty steer) DriveMode.MANUAL] } := by
  have e : webSocketEvent s (wsAxis steer throttle) now
      = handleStructured s (some { steer := some steer, throttle := some throttle }) now := rfl
  rw [e]
  unfold handleStructured
  simp only [Option.getD, h, mapDuty, applyChannelsA, applyChannelsB, if_pos rfl]
  split_ifs <;> first | rfl | (exfalso; omega)

/-- C1 (counterexample): a reachable state of the core with both motor duties
zero and the enable (standby) line still asserted — obtained by processing the
structured axis command with steer = 0 and throttle = 0 in MANUAL mode from the
boot state; the MANUAL branch drives `motor_stby` HIGH unconditionally, so the
claimed invariant fails. -/
theorem C1_counterexample :
    ∃ s : CarState, Reachable s ∧ s.targetA = 0 ∧ s.targetB = 0 ∧ s.stby = true :=
  ⟨webSocketEvent initState (wsAxis 0 0) 5,
   Reachable.ws (wsAxis 0 0) 5 Reachable.boot, by decide, by decide, by decide⟩

/-- C1 (amended): every emergency stop and every timeout-triggered stop leaves
both duties zero with the enable line deasserted (and a tick otherwise changes
nothing); but every structured axis command processed in MANUAL mode asserts
the enable line unconditionally — even with steer = 0 and throttle = 0 — so the
enable line can be left asserted while both duties are zero. -/
theorem C1_enable_amended :
    (∀ s : CarState,
        (emergencyStopNow s).targetA = 0 ∧ (emergencyStopNow s).targetB = 0 ∧
          (emergencyStopNow s).stby = false) ∧
    (∀ (s : CarState) (now : Nat),
        loopTick s now = s ∨
          ((loopTick s now).targetA = 0 ∧ (loopTick s now).targetB = 0 ∧
            (loopTick s now).stby = false)) ∧
    (∀ (s : CarState) (f : JsonFields) (now : Nat),
        s.currentMode = DriveMode.MANUAL →
        (webSocketEvent s (WsEvent.text (TextMsg.structuredMsg (some f))) now).stby = true) := by
  refine ⟨fun s => ⟨rfl, rfl, rfl⟩, fun s now => ?_, fun s f now h => ?_⟩
  · unfold loopTick
    split_ifs <;> simp
  · have e : webSocketEvent s (WsEvent.text (TextMsg.structuredMsg (some f))) now
        = handleStructured s (some f) now := rfl
    rw [e]
    unfold handleStructured
    simp only [h, if_pos rfl, applyChannelsA, applyChannelsB]
    split_ifs <;> rfl

/-- C1 (amended, witness): instantiated at the boot state and the all-zero axis
command. -/
theorem C1_enable_amended_witness :
    (emergencyStopNow initState).stby = false ∧
    (webSocketEvent initState
        (WsEvent.text (TextMsg.structuredMsg (some { steer := some 0, throttle := some 0 })))
        5).stby = true :=
  ⟨(C1_enable_amended.1 initState).2.2,
   C1_enable_amended.2.2 initState { steer := some 0, throttle := some 0 } 5 rfl⟩

/-- C2: a WebSocket client disconnect performs a full emergency stop (both
duties zeroed, all four PWM channels zeroed, enable line deasserted, two log
lines: the disconnect notice and the emergency-stop message); but in the BLE
variant `onDisconnect` stops only motor 1 — after the write `"M2:100"` and a
client disconnect, motor 2's forward channel still carries duty 100, so the
code contradicts the fail-safe stop it documents. -/
theorem C2_transport_disconnect :
    (∀ (s : CarState) (now : Nat),
        webSocketEvent s WsEvent.disconnected now
          = { s with targetA := 0, targetB := 0, stby := false,
                     chAFwd := 0, chARev := 0, chBLeft := 0, chBRight := 0,
                     log := s.log ++ [LogEvent.wsDisconnected, LogEvent.emergencyStop] }) ∧
    (bleOnDisconnect (bleOnWrite bleSetupState (String.toList "M2:100"))
        = { m1In1 := 0, m1In2 := 0, m2In1 := 100, m2In2 := 0 }) := by
  constructor
  · intro s now
    simp [webSocketEvent, emergencyStopNow]
  · decide

/-- C3 (counterexample): at steer = 10^7 in MANUAL mode the source's 32-bit
multiply `steer * MAX_DUTY` wraps (10^7 * 255 = 2550000000 overflows to
-1744967296), so the stored duty is -255, while the claim's exact formula
`clamp(steer * MAX_DUTY / 100, -MAX_DUTY, MAX_DUTY)` gives +255 — the claimed
equality (and hence the clamp-then-scale coincidence) fails for inputs whose
scaled product leaves the `int` range. -/
theorem C3_counterexample :
    (webSocketEvent initState (wsAxis 10000000 0) 5).targetB = -255 ∧
    constrain (Int.tdiv (10000000 * MAX_DUTY) 100) (-MAX_DUTY) MAX_DUTY = 255 ∧
    (webSocketEvent initState (wsAxis 10000000 0) 5).targetB
        ≠ constrain (Int.tdiv (10000000 * MAX_DUTY) 100) (-MAX_DUTY) MAX_DUTY := by
  refine ⟨by decide, by decide, by decide⟩

/-- C3 (amended): for every steer and throttle whose scaled product stays
within the 32-bit `int` range (|input| ≤ 8421504 — in particular all of
[-100, 100]), the stored duties in MANUAL mode are exactly
`constrain(input * MAX_DUTY / 100, -MAX_DUTY, MAX_DUTY)` with truncating
division (motor A from throttle, motor B from steer); missing fields default
to 0; on that range the mapping coincides with first clamping the input to
[-100, 100] and then scaling; and the duty has the sign of its input for every
nonzero input in [-100, 100].  Outside that range the 32-bit multiply wraps
and the formula fails (see the counterexample). -/
theorem C3_axis_mapping_amended :
    (∀ (s : CarState) (steer throttle : Int) (now : Nat),
        s.currentMode = DriveMode.MANUAL →
        -8421504 ≤ steer → steer ≤ 8421504 →
        -8421504 ≤ throttle → throttle ≤ 8421504 →
        (webSocketEvent s (wsAxis steer throttle) now).targetA
            = constrain (Int.tdiv (throttle * MAX_DUTY) 100) (-MAX_DUTY) MAX_DUTY ∧
        (webSocketEvent s (wsAxis steer throttle) now).targetB
            = constrain (Int.tdiv (steer * MAX_DUTY) 100) (-MAX_DUTY) MAX_DUTY) ∧
    (∀ (fs ft : Option Int) (s : CarState) (now : Nat),
        webSocketEvent s
            (WsEvent.text (TextMsg.structuredMsg (some { steer := fs, throttle := ft }))) now
          = webSocketEvent s (wsAxis (fs.getD 0) (ft.getD 0)) now) ∧
    (∀ t : Int, -8421504 ≤ t → t ≤ 8421504 →
        constrain (Int.tdiv (t * MAX_DUTY) 100) (-MAX_DUTY) MAX_DUTY
          = Int.tdiv (constrain t (-100) 100 * MAX_DUTY) 100) ∧
    (∀ t : Int, -100 ≤ t → t ≤ 100 → t ≠ 0 →
        Int.sign (constrain (Int.tdiv (t * MAX_DUTY) 100) (-MAX_DUTY) MAX_DUTY) = Int.sign t) := by
  refine ⟨fun s steer throttle now h hs1 hs2 ht1 ht2 => ?_, fun fs ft s now => rfl,
    fun t h1 h2 => ?_, fun t h1 h2 h3 => ?_⟩
  · rw [wsAxis_manual_eq s steer throttle now h]
    constructor
    · show mapDuty throttle = _
      unfold mapDuty
      rw [wrap32_eq_self (throttle * MAX_DUTY)
        (by simp only [MAX_DUTY]; omega) (by simp only [MAX_DUTY]; omega)]
    · show mapDuty steer = _
      unfold mapDuty
      rw [wrap32_eq_self (steer * MAX_DUTY)
        (by simp only [MAX_DUTY]; omega) (by simp only [MAX_DUTY]; omega)]
  · simp only [MAX_DUTY, constrain]
    rw [tdiv_as_ediv _ _ (by norm_num), tdiv_as_ediv _ _ (by norm_num)]
    split_ifs <;> omega
  · rcases lt_or_gt_of_ne h3 with hneg | hpos
    · have hd : constrain (Int.tdiv (t * MAX_DUTY) 100) (-MAX_DUTY) MAX_DUTY < 0 := by
        simp only [MAX_DUTY, constrain]
        rw [tdiv_as_ediv _ _ (by norm_num)]
        split_ifs <;> omega
      rw [Int.sign_eq_neg_one_of_neg hd, Int.sign_eq_neg_one_of_neg hneg]
    · have hd : 0 < constrain (Int.tdiv (t * MAX_DUTY) 100) (-MAX_DUTY) MAX_DUTY := by
        simp only [MAX_DUTY, constrain]
        rw [tdiv_as_ediv _ _ (by norm_num)]
        split_ifs <;> omega
      rw [Int.sign_eq_one_of_pos hd, Int.sign_eq_one_of_pos hpos]

/-- C3 (amended, witness): instantiated at the boot state with steer = 100,
throttle = -50 (in-range mapping and sign), and at t = 200 (clamp-then-scale
coincidence beyond [-100, 100] but inside the non-overflow range). -/
theorem C3_axis_mapping_amended_witness :
    ((webSocketEvent initState (wsAxis 100 (-50)) 7).targetA
        = constrain (Int.tdiv ((-50) * MAX_DUTY) 100) (-MAX_DUTY) MAX_DUTY) ∧
    (constrain (Int.tdiv (200 * MAX_DUTY) 100) (-MAX_DUTY) MAX_DUTY
        = Int.tdiv (constrain 200 (-100) 100 * MAX_DUTY) 100) ∧
    Int.sign (constrain (Int.tdiv ((-50) * MAX_DUTY) 100) (-MAX_DUTY) MAX_DUTY)
        = Int.sign (-50) :=
  ⟨(C3_axis_mapping_amended.1 initState 100 (-50) 7 rfl
      (by decide) (by decide) (by decide) (by decide)).1,
   C3_axis_mapping_amended.2.2.1 200 (by decide) (by decide),
   C3_axis_mapping_amended.2.2.2 (-50) (by decide) (by decide) (by decide)⟩

/-- C4: on a control-loop tick more than `COMMAND_TIMEOUT` (300 ms) after the
last accepted command, a nonzero duty forces both duties to 0, deasserts the
enable line, zeroes all four PWM channels and emits exactly one log event;
with both duties already zero the tick is the identity (no write, no log). -/
theorem C4_timeout_tick :
    ∀ (s : CarState) (now : Nat),
      s.lastCommandTime ≤ now → now < 2 ^ 32 →
      COMMAND_TIMEOUT < now - s.lastCommandTime →
      ((s.targetA ≠ 0 ∨ s.targetB ≠ 0) →
          loopTick s now
            = { s with log := s.log ++ [LogEvent.timeoutStop],
                       targetA := 0, targetB := 0, stby := false,
                       chAFwd := 0, chARev := 0, chBLeft := 0, chBRight := 0 }) ∧
      ((s.targetA = 0 ∧ s.targetB = 0) → loopTick s now = s) := by
  intro s now h1 h2 h3
  have he : elapsedMillis now s.lastCommandTime > COMMAND_TIMEOUT := by
    simp only [elapsedMillis, COMMAND_TIMEOUT] at *
    omega
  constructor
  · intro hnz
    unfold loopTick
    rw [if_pos he, if_pos hnz]
  · intro hz
    unfold loopTick
    rw [if_pos he, if_neg (by simp [hz.1, hz.2])]

/-- C4 (witness): a tick at 400 ms with duty 100 stops everything and logs
once; a tick at 400 ms with both duties zero changes nothing. -/
theorem C4_timeout_tick_witness :
    loopTick { initState with targetA := 100, stby := true, chAFwd := 100 } 400
        = { initState with log := [LogEvent.timeoutStop] } ∧
    loopTick initState 400 = initState :=
  ⟨((C4_timeout_tick { initState with targetA := 100, stby := true, chAFwd := 100 } 400
        (by decide) (by decide) (by decide)).1 (Or.inl (by decide))).trans (by decide),
   (C4_timeout_tick initState 400 (by decide) (by decide) (by decide)).2 ⟨rfl, rfl⟩⟩

/-- C5: the channel-pair write policy, in both firmware variants: duty d > 0
puts d on the forward channel and 0 on the reverse channel, d < 0 puts 0
forward and |d| reverse, d = 0 zeroes both; consequently at least one channel
of each pair is always zero (never both nonzero). -/
theorem C5_channel_pair_policy :
    (∀ (s : CarState) (d : Int),
        ((applyChannelsA s d).chAFwd, (applyChannelsA s d).chARev)
            = (if d > 0 then (d, (0:Int)) else if d < 0 then ((0:Int), |d|) else (0, 0)) ∧
        ((applyChannelsA s d).chAFwd = 0 ∨ (applyChannelsA s d).chARev = 0)) ∧
    (∀ (s : CarState) (d : Int),
        ((applyChannelsB s d).chBRight, (applyChannelsB s d).chBLeft)
            = (if d > 0 then (d, (0:Int)) else if d < 0 then ((0:Int), |d|) else (0, 0)) ∧
        ((applyChannelsB s d).chBRight = 0 ∨ (applyChannelsB s d).chBLeft = 0)) ∧
    (∀ speed : Int,
        setMotorSpeed speed
            = (if constrain speed (-255) 255 > 0 then (constrain speed (-255) 255, (0:Int))
               else if constrain speed (-255) 255 < 0 then ((0:Int), |constrain speed (-255) 255|)
               else (0, 0)) ∧
        ((setMotorSpeed speed).1 = 0 ∨ (setMotorSpeed speed).2 = 0)) := by
  refine ⟨fun s d => ?_, fun s d => ?_, fun speed => ?_⟩
  · unfold applyChannelsA
    split_ifs <;> simp
  · unfold applyChannelsB
    split_ifs <;> simp
  · have e : setMotorSpeed speed
        = (if constrain speed (-255) 255 > 0 then (constrain speed (-255) 255, (0:Int))
           else if constrain speed (-255) 255 < 0 then ((0:Int), |constrain speed (-255) 255|)
           else (0, 0)) := by
      unfold setMotorSpeed
      split_ifs with h1 h2 <;> simp [abs_of_pos, h1] <;> omega
    refine ⟨e, ?_⟩
    rw [e]
    split_ifs <;> simp

/-- C6 (counterexample): with the core switched to AUTO, submitting the
structured axis command (steer = 50, throttle = 50) stores nothing — the duty
state does not reflect the mapped value 127 and the last-command timestamp is
not refreshed — because in the source the store and the timestamp refresh sit
inside the `currentMode == MANUAL` guard. -/
theorem C6_counterexample :
    (webSocketEvent stateAfterAuto (wsAxis 50 50) 10).targetB
        ≠ constrain (Int.tdiv (50 * MAX_DUTY) 100) (-MAX_DUTY) MAX_DUTY ∧
    (webSocketEvent stateAfterAuto (wsAxis 50 50) 10).lastCommandTime ≠ 10 := by
  constructor <;> decide

/-- C6 (amended): while Mode = AUTO a well-formed structured axis command is
fully ignored — duties, channels, enable line, mode and timestamp all
unchanged; only the status broadcast is emitted; after switching to MANUAL,
resubmitting (steer = 50, throttle = 50) does change the hardware duty
outputs (both forward channels at 127) and stores the mapped duties. -/
theorem C6_mode_gating_amended :
    (∀ (s : CarState) (f : JsonFields) (now : Nat),
        s.currentMode = DriveMode.AUTO →
        webSocketEvent s (WsEvent.text (TextMsg.structuredMsg (some f))) now
          = { s with log := s.log ++
              [LogEvent.statusBroadcast s.targetA s.targetB s.currentMode] }) ∧
    (∀ (s : CarState) (now : Nat),
        s.currentMode = DriveMode.MANUAL →
        (webSocketEvent s (wsAxis 50 50) now).chAFwd = 127 ∧
        (webSocketEvent s (wsAxis 50 50) now).chBRight = 127 ∧
        (webSocketEvent s (wsAxis 50 50) now).targetA = 127 ∧
        (webSocketEvent s (wsAxis 50 50) now).targetB = 127 ∧
        (webSocketEvent s (wsAxis 50 50) now).lastCommandTime = now) := by
  constructor
  · intro s f now h
    have e : webSocketEvent s (WsEvent.text (TextMsg.structuredMsg (some f))) now
        = handleStructured s (some f) now := rfl
    rw [e]
    unfold handleStructured
    simp [h]
  · intro s now h
    rw [wsAxis_manual_eq s 50 50 now h]
    refine ⟨?_, ?_, ?_, ?_, rfl⟩ <;> (dsimp only; decide)

/-- C6 (amended, witness): instantiated at the state reached by the `'A'`
command and at the boot (MANUAL) state. -/
theorem C6_mode_gating_amended_witness :
    webSocketEvent stateAfterAuto
        (WsEvent.text (TextMsg.structuredMsg (some { steer := some 50, throttle := some 50 }))) 10
      = { stateAfterAuto with log := stateAfterAuto.log ++
          [LogEvent.statusBroadcast stateAfterAuto.targetA stateAfterAuto.targetB
            stateAfterAuto.currentMode] } ∧
    (webSocketEvent initState (wsAxis 50 50) 3).chAFwd = 127 :=
  ⟨C6_mode_gating_amended.1 stateAfterAuto { steer := some 50, throttle := some 50 } 10 (by decide),
   (C6_mode_gating_amended.2 initState 3 rfl).1⟩

/-- C7: each motor's legacy value is parsed independently: an absent `"M1:"` or
`"M2:"` token leaves that motor's speed 0; a present token whose integer is
unparsable leaves that motor at 0 without affecting the other; concretely
`"M1:150"` drives motor A forward at 150 with motor B stopped, and
`"M1:abc,M2:-50"` leaves motor A stopped with motor B reversing at 50. -/
theorem C7_legacy_independent_parse :
    (∀ rx : List Char, findSub m1Token rx = none → parseM1 rx = 0) ∧
    (∀ rx : List Char, findSub m2Token rx = none → parseM2 rx = 0) ∧
    (∀ (rx : List Char) (p : Nat),
        findSub m1Token rx = some p → stoiModel (m1Extract rx p) = none → parseM1 rx = 0) ∧
    (∀ (rx : List Char) (p : Nat),
        findSub m2Token rx = some p → stoiModel (m2Extract rx p) = none → parseM2 rx = 0) ∧
    (bleOnWrite bleSetupState (String.toList "M1:150")
        = { m1In1 := 150, m1In2 := 0, m2In1 := 0, m2In2 := 0 }) ∧
    (bleOnWrite bleSetupState (String.toList "M1:abc,M2:-50")
        = { m1In1 := 0, m1In2 := 0, m2In1 := 0, m2In2 := 50 }) := by
  refine ⟨fun rx h => ?_, fun rx h => ?_, fun rx p h1 h2 => ?_, fun rx p h1 h2 => ?_,
    by decide, by decide⟩
  · unfold parseM1
    rw [h]
  · unfold parseM2
    rw [h]
  · simp [parseM1, h1, h2]
  · simp [parseM2, h1, h2]

/-- C7 (witness): instantiated at `"M2:7"` (no `"M1:"` token) and at
`"M1:abc,M2:-50"` (token present, integer unparsable). -/
theorem C7_legacy_independent_parse_witness :
    parseM1 (String.toList "M2:7") = 0 ∧ parseM1 (String.toList "M1:abc,M2:-50") = 0 :=
  ⟨C7_legacy_independent_parse.1 (String.toList "M2:7") (by decide),
   C7_legacy_independent_parse.2.2.1 (String.toList "M1:abc,M2:-50") 0 (by decide) (by decide)⟩

/-- C8: a multi-character message that fails structured (JSON) decoding only
adds one log line; duties, PWM channels, enable line, mode and last-command
timestamp are all unchanged. -/
theorem C8_parse_error_is_pure_log :
    ∀ (s : CarState) (now : Nat),
      webSocketEvent s (WsEvent.text (TextMsg.structuredMsg none)) now
        = { s with log := s.log ++ [LogEvent.jsonParseFailed] } :=
  fun _ _ => rfl

/-- C9: a single-character message outside {A, M, S} changes no duty, channel,
enable state or mode and emits no log line, but still refreshes the
last-command timestamp. -/
theorem C9_unknown_single_char_refreshes_timer :
    ∀ (s : CarState) (c : Char) (now : Nat),
      c ≠ 'A' → c ≠ 'M' → c ≠ 'S' →
      webSocketEvent s (WsEvent.text (TextMsg.single c)) now
        = { s with lastCommandTime := now } := by
  intro s c now h1 h2 h3
  have e : webSocketEvent s (WsEvent.text (TextMsg.single c)) now = handleSingle s c now := rfl
  rw [e]
  unfold handleSingle
  simp [h1, h2, h3]

/-- C9 (witness): instantiated at the character `'X'`. -/
theorem C9_unknown_single_char_refreshes_timer_witness :
    webSocketEvent initState (WsEvent.text (TextMsg.single 'X')) 9
      = { initState with lastCommandTime := 9 } :=
  C9_unknown_single_char_refreshes_timer initState 'X' 9 (by decide) (by decide) (by decide)

/-- C10: in the BLE variant, every non-empty message containing neither
`"M1:"` nor `"M2:"` commands both motors to speed 0 — all four PWM channels
are zeroed, whatever they were before. -/
theorem C10_tokenless_message_stops_both :
    ∀ (s : BleState) (rx : List Char), rx.length > 0 →
      findSub m1Token rx = none → findSub m2Token rx = none →
      bleOnWrite s rx = { m1In1 := 0, m1In2 := 0, m2In1 := 0, m2In2 := 0 } := by
  intro s rx hlen h1 h2
  have e1 : parseM1 rx = 0 := by unfold parseM1; rw [h1]
  have e2 : parseM2 rx = 0 := by unfold parseM2; rw [h2]
  unfold bleOnWrite
  rw [if_pos hlen, e1, e2]
  rfl

/-- C10 (witness): the message `"stop"` zeroes all four channels from a running
state. -/
theorem C10_tokenless_message_stops_both_witness :
    bleOnWrite { m1In1 := 7, m1In2 := 0, m2In1 := 0, m2In2 := 9 } (String.toList "stop")
      = { m1In1 := 0, m1In2 := 0, m2In1 := 0, m2In2 := 0 } :=
  C10_tokenless_message_stops_both { m1In1 := 7, m1In2 := 0, m2In1 := 0, m2In2 := 9 }
    (String.toList "stop") (by decide) (by decide) (by decide)

